import Mathlib

/-!
Shallow embedding of the YAK broker (broker.py and
follower_with_topics_partitions.py): leader election over a TTL key/value
store, per-partition append logs with a high-water mark, producer
idempotence, and the produce/consume HTTP handlers.

The coordination store (Redis) is modelled as explicit state; log files on
disk are association lists from (topic, partition) to lists of lines, a
line being `some d` when it parses as JSON and `none` when corrupt; the
process-local Python `hash` is a parameter `h : String → Int`.
-/

namespace YAK

/-! ### Python `int()` on request arguments -/

/-- Value of a non-empty digit string, `none` on any non-digit. -/
def digitsVal (cs : List Char) : Option Nat :=
  match cs with
  | [] => none
  | _ =>
    cs.foldl
      (fun acc c =>
        match acc with
        | none => none
        | some n => if c.isDigit then some (10 * n + (c.toNat - 48)) else none)
      (some 0)

/-- Python `int(s)` for a string: surrounding whitespace is ignored, then
an optional sign and digits; `none` models `ValueError`. -/
def pyInt (s : String) : Option Int :=
  match ((s.toList.dropWhile Char.isWhitespace).reverse.dropWhile
      Char.isWhitespace).reverse with
  | '-' :: cs => (digitsVal cs).map (fun n => -(n : Int))
  | '+' :: cs => (digitsVal cs).map (fun n => (n : Int))
  | cs => (digitsVal cs).map (fun n => (n : Int))

/-- `int(request.args.get(name, 0))`: a missing argument defaults to the
integer 0, a present one goes through `int(...)`. -/
def pyIntArg (arg : Option String) : Option Int :=
  match arg with
  | none => some 0
  | some s => pyInt s

/-- Python truthiness of an optional string: `None` and `""` are falsy. -/
def pyTruthy : Option String → Option String
  | some "" => none
  | x => x

/-! ### Coordination store (Redis) -/

/-- Generic association list keyed by (topic, partition). -/
def alistGet {β : Type} : List ((String × Int) × β) → (String × Int) → Option β
  | [], _ => none
  | (k', v) :: rest, k => if k' = k then some v else alistGet rest k

def alistSet {β : Type} : List ((String × Int) × β) → (String × Int) → β →
    List ((String × Int) × β)
  | [], k, v => [(k, v)]
  | (k', v') :: rest, k, v =>
      if k' = k then (k, v) :: rest else (k', v') :: alistSet rest k v

/-- The shared Redis state: the `leader_lease` key, the `hwm:{topic}:{partition}`
counters, and the set of live `yak_msg_lock:{msg_id}` keys. -/
structure Redis where
  leaderLease : Option String
  hwm : List ((String × Int) × Nat)
  locks : List String
deriving DecidableEq, Repr

/-- `REDIS_CLIENT.get(f"hwm:{topic}:{partition}")`. -/
def redisGetHwm (r : Redis) (topic : String) (p : Int) : Option Nat :=
  alistGet r.hwm (topic, p)

/-- `REDIS_CLIENT.incr(hwm_key)`: returns the new value and state. -/
def redisIncrHwm (r : Redis) (topic : String) (p : Int) : Nat × Redis :=
  let newVal := (redisGetHwm r topic p).getD 0 + 1
  (newVal, { r with hwm := alistSet r.hwm (topic, p) newVal })

/-! ### Topic registry and partitioning -/

def DEFAULT_PARTITIONS : Nat := 3

/-- The in-process `TOPICS` dict, topic name ↦ partition count (the
per-partition log-file names are derived from broker id, topic, index). -/
abbrev TopicMap := List (String × Nat)

def lookupTopic : TopicMap → String → Option Nat
  | [], _ => none
  | (a, n) :: rest, t => if a = t then some n else lookupTopic rest t

/-- `ensure_topic_exists`: create the topic with the default partition count
if absent, otherwise leave the registry unchanged. -/
def ensure_topic_exists (ts : TopicMap) (topic : String) : TopicMap :=
  if (lookupTopic ts topic).isSome then ts else ts ++ [(topic, DEFAULT_PARTITIONS)]

/-- `get_partition_for_key`: `hash(key) % num_partitions`, partition 0 for a
`None` key.  Python's `%` on a positive modulus is `Int.emod`. -/
def get_partition_for_key (h : String → Int) (key : Option String)
    (numPartitions : Int) : Int :=
  match key with
  | none => 0
  | some k => h k % numPartitions

/-! ### Disk and node state -/

/-- A broker's local state: topic registry plus its partition log files.
A file entry's value is the list of lines; a line is `some d` when it
parses as JSON and `none` when corrupt.  An absent entry is a file that
does not exist on disk. -/
structure Node (α : Type) where
  topics : TopicMap
  files : List ((String × Int) × List (Option α))
deriving DecidableEq, Repr

/-- `open(log_file, "a")` followed by writing one line: creates the file
when absent. -/
def appendFile {α : Type} (fs : List ((String × Int) × List (Option α)))
    (k : String × Int) (line : Option α) : List ((String × Int) × List (Option α)) :=
  alistSet fs k ((alistGet fs k).getD [] ++ [line])

/-! ### Records and HTTP bodies -/

/-- The record a produce handler writes to the partition log. -/
structure Message (α : Type) where
  msg_id : String
  topic : String
  partition : Int
  key : Option String
  payload : α
  timestamp : Nat
deriving DecidableEq, Repr

/-- A parsed `/produce` JSON body: `msg_id`, the nested `data` object's
`topic`/`key`, the top-level `topic`/`key`, and the payload. -/
structure ProduceReq (α : Type) where
  msg_id : Option String
  dataTopic : Option String
  dataKey : Option String
  topTopic : Option String
  topKey : Option String
  payload : α
deriving DecidableEq, Repr

/-- `data_payload.get('topic') or data.get('topic') or 'default'`. -/
def resolveTopic {α : Type} (rq : ProduceReq α) : String :=
  match pyTruthy rq.dataTopic with
  | some t => t
  | none =>
    match pyTruthy rq.topTopic with
    | some t => t
    | none => "default"

/-- `data_payload.get('key') or data.get('key')`. -/
def resolveKey {α : Type} (rq : ProduceReq α) : Option String :=
  match pyTruthy rq.dataKey with
  | some k => some k
  | none => rq.topKey

/-- The observable parts of a `/produce` JSON reply. -/
structure ProduceResp where
  code : Nat
  status : Option String
  offset : Option Nat
  topic : Option String
  partition : Option Int
  leaderId : Option String
  msgIdField : Option String
  error : Option String
deriving DecidableEq, Repr

/-- One entry of a `/consume` reply's `messages` array. -/
structure ConsumedMsg (α : Type) where
  offset : Nat
  topic : String
  partition : Int
  data : α
deriving DecidableEq, Repr

/-- The observable parts of a `/consume` JSON reply; an `Option` field is
`none` when the JSON body omits the field. -/
structure ConsumeResp (α : Type) where
  code : Nat
  error : Option String
  messages : Option (List (ConsumedMsg α))
  highWaterMark : Option Nat
deriving DecidableEq, Repr

/-! ### Produce handlers -/

/-- `handle_produce` of broker.py.  `h` is the process hash, `freshId` the
`str(uuid.uuid4())` drawn for a missing `msg_id`, `now` the value of
`time.time()`, and `diskOk = false` injects an exception at the log append
(the `except` branch).  Replication to the follower is best-effort and has
no effect on the local result. -/
def broker_handle_produce {α : Type} (h : String → Int) (brokerId : String)
    (isLeader : Bool) (node : Node (Message α)) (r : Redis)
    (req : Option (ProduceReq α)) (freshId : String) (now : Nat)
    (diskOk : Bool) : ProduceResp × Node (Message α) × Redis :=
  if !isLeader then
    match r.leaderLease with
    | none =>
        (⟨503, none, none, none, none, none, none,
          some "No leader elected yet. Please try again."⟩, node, r)
    | some lid =>
        (⟨400, none, none, none, none, some lid, none, some "Not the leader"⟩,
          node, r)
  else
    match req with
    | none => (⟨400, none, none, none, none, none, none, some "No data provided"⟩, node, r)
    | some rq =>
      let topic := resolveTopic rq
      let key := resolveKey rq
      let topics' := ensure_topic_exists node.topics topic
      let n := (lookupTopic topics' topic).getD 0
      let p := get_partition_for_key h key (n : Int)
      let msgId := rq.msg_id.getD freshId
      let msg : Message α := ⟨msgId, topic, p, key, rq.payload, now⟩
      if diskOk then
        let files' := appendFile node.files (topic, p) (some msg)
        let hwmOut := redisIncrHwm r topic p
        (⟨200, some "success", some hwmOut.1, some topic, some p, some brokerId,
          none, none⟩, ⟨topics', files'⟩, hwmOut.2)
      else
        (⟨500, none, none, none, none, none, none, some "Internal error"⟩,
          ⟨topics', node.files⟩, r)

/-- `handle_produce` of follower_with_topics_partitions.py (the promoted
leader path): requires a truthy `msg_id`, claims `yak_msg_lock:{msg_id}`
with set-if-absent, answers `success_duplicate` on a failed claim, and on
an exception after the claim (`diskOk = false`) deletes the lock and
returns 500. -/
def follower_handle_produce {α : Type} (h : String → Int) (brokerId : String)
    (isLeader : Bool) (node : Node (Message α)) (r : Redis)
    (req : Option (ProduceReq α)) (now : Nat) (diskOk : Bool) :
    ProduceResp × Node (Message α) × Redis :=
  if !isLeader then
    match r.leaderLease with
    | none =>
        (⟨503, none, none, none, none, none, none,
          some "No leader elected yet. Please try again."⟩, node, r)
    | some lid =>
        (⟨400, none, none, none, none, some lid, none, some "Not the leader"⟩,
          node, r)
  else
    match req with
    | none => (⟨400, none, none, none, none, none, none, some "No data provided"⟩, node, r)
    | some rq =>
      match pyTruthy rq.msg_id with
      | none =>
          (⟨400, none, none, none, none, none, none, some "msg_id is required"⟩,
            node, r)
      | some msgId =>
        let topic := resolveTopic rq
        let key := resolveKey rq
        if msgId ∈ r.locks then
          (⟨200, some "success_duplicate", none, none, none, some brokerId,
            some msgId, none⟩, node, r)
        else
          let r1 : Redis := { r with locks := msgId :: r.locks }
          let topics' := ensure_topic_exists node.topics topic
          let n := (lookupTopic topics' topic).getD 0
          let p := get_partition_for_key h key (n : Int)
          let msg : Message α := ⟨msgId, topic, p, key, rq.payload, now⟩
          if diskOk then
            let files' := appendFile node.files (topic, p) (some msg)
            let hwmOut := redisIncrHwm r1 topic p
            (⟨200, some "success_new", some hwmOut.1, some topic, some p,
              some brokerId, none, none⟩, ⟨topics', files'⟩, hwmOut.2)
          else
            (⟨500, none, none, none, none, none, none, some "Internal error"⟩,
              ⟨topics', node.files⟩, { r1 with locks := r1.locks.erase msgId })

/-! ### Consume handlers -/

/-- The broker.py log scan: `current_offset` starts at `cur`, each line is
one offset position (`msg_offset = current_offset + 1`), the loop breaks
past the high-water mark, a record is returned when `msg_offset > offset`
and the line parses; a corrupt line is skipped but still advances
`current_offset`. -/
def brokerScanFrom {α : Type} (lines : List (Option α)) (cur : Nat)
    (hwm : Nat) (offset : Int) : List (Nat × α) :=
  match lines with
  | [] => []
  | l :: rest =>
    if hwm < cur + 1 then []
    else if offset < ((cur + 1 : Nat) : Int) then
      match l with
      | some d => (cur + 1, d) :: brokerScanFrom rest (cur + 1) hwm offset
      | none => brokerScanFrom rest (cur + 1) hwm offset
    else brokerScanFrom rest (cur + 1) hwm offset

/-- The follower_with_topics_partitions.py log scan: identical except the
inclusion test is `msg_offset >= offset`. -/
def followerScanFrom {α : Type} (lines : List (Option α)) (cur : Nat)
    (hwm : Nat) (offset : Int) : List (Nat × α) :=
  match lines with
  | [] => []
  | l :: rest =>
    if hwm < cur + 1 then []
    else if offset ≤ ((cur + 1 : Nat) : Int) then
      match l with
      | some d => (cur + 1, d) :: followerScanFrom rest (cur + 1) hwm offset
      | none => followerScanFrom rest (cur + 1) hwm offset
    else followerScanFrom rest (cur + 1) hwm offset

/-- broker.py `handle_consume` after the leader check and parameter
parsing: ensure the topic, 404 on a partition outside the topic's range,
read the HWM, return `{"messages": []}` (no `high_water_mark`) when the
log file does not exist, otherwise the scanned records with the HWM. -/
def brokerConsumeCore {α : Type} (node : Node α) (r : Redis) (topic : String)
    (p o : Int) : ConsumeResp α × TopicMap :=
  let topics' := ensure_topic_exists node.topics topic
  let n := (lookupTopic topics' topic).getD 0
  if p < 0 ∨ (n : Int) ≤ p then
    (⟨404, some ("Partition " ++ toString p ++ " does not exist for topic '" ++
        topic ++ "'"), some [], none⟩, topics')
  else
    let hwm := (redisGetHwm r topic p).getD 0
    match alistGet node.files (topic, p) with
    | none => (⟨200, none, some [], none⟩, topics')
    | some lines =>
        (⟨200, none,
          some ((brokerScanFrom lines 0 hwm o).map
            (fun q => ⟨q.1, topic, p, q.2⟩)),
          some hwm⟩, topics')

/-- follower `handle_consume` core: a missing topic is a 404 (no lazy
creation), and the scan keeps records with `msg_offset >= offset`. -/
def followerConsumeCore {α : Type} (node : Node α) (r : Redis) (topic : String)
    (p o : Int) : ConsumeResp α :=
  match lookupTopic node.topics topic with
  | none => ⟨404, some ("Topic '" ++ topic ++ "' does not exist"), some [], none⟩
  | some n =>
    if p < 0 ∨ (n : Int) ≤ p then
      ⟨404, some ("Partition " ++ toString p ++ " does not exist"), some [], none⟩
    else
      let hwm := (redisGetHwm r topic p).getD 0
      match alistGet node.files (topic, p) with
      | none => ⟨200, none, some [], none⟩
      | some lines =>
          ⟨200, none,
            some ((followerScanFrom lines 0 hwm o).map
              (fun q => ⟨q.1, topic, p, q.2⟩)),
            some hwm⟩

/-- broker.py `handle_consume`: a non-leader gets a bare 400
`{"error": "Not the leader"}` (the lease in `r` is never consulted),
then `topic`/`partition`/`offset` are parsed, `ValueError` giving 400. -/
def broker_handle_consume {α : Type} (isLeader : Bool) (node : Node α)
    (r : Redis) (targ parg oarg : Option String) : ConsumeResp α × TopicMap :=
  if !isLeader then (⟨400, some "Not the leader", none, none⟩, node.topics)
  else
    let topic := targ.getD "default"
    match pyIntArg parg with
    | none => (⟨400, some "Invalid parameters", none, none⟩, node.topics)
    | some p =>
      match pyIntArg oarg with
      | none => (⟨400, some "Invalid parameters", none, none⟩, node.topics)
      | some o => brokerConsumeCore node r topic p o

/-- follower `handle_consume`: same guard and parsing, follower core. -/
def follower_handle_consume {α : Type} (isLeader : Bool) (node : Node α)
    (r : Redis) (targ parg oarg : Option String) : ConsumeResp α :=
  if !isLeader then ⟨400, some "Not the leader", none, none⟩
  else
    let topic := targ.getD "default"
    match pyIntArg parg with
    | none => ⟨400, some "Invalid parameters", none, none⟩
    | some p =>
      match pyIntArg oarg with
      | none => ⟨400, some "Invalid parameters", none, none⟩
      | some o => followerConsumeCore node r topic p o

/-! ### Scan lemmas -/

/-- Membership characterization of the broker scan: a pair is returned iff
its offset is past the cursor, committed, strictly past the requested
offset, and its line (at position offset − cur − 1) parses to its data. -/
theorem brokerScanFrom_mem {α : Type} (lines : List (Option α)) (cur hwm : Nat)
    (offset : Int) (off : Nat) (d : α) :
    (off, d) ∈ brokerScanFrom lines cur hwm offset ↔
      (cur < off ∧ off ≤ hwm ∧ offset < (off : Int) ∧
        lines[off - cur - 1]? = some (some d)) := by
  induction lines generalizing cur with
  | nil =>
    simp [brokerScanFrom]
  | cons l rest ih =>
    by_cases h1 : hwm < cur + 1
    · simp only [brokerScanFrom, if_pos h1, List.not_mem_nil, false_iff]
      rintro ⟨hc, hh, -, -⟩
      omega
    · by_cases h2 : offset < ((cur + 1 : Nat) : Int)
      · cases l with
        | some d0 =>
          simp only [brokerScanFrom, if_neg h1, if_pos h2, List.mem_cons]
          constructor
          · rintro (heq | htail)
            · rw [Prod.mk.injEq] at heq
              obtain ⟨rfl, rfl⟩ := heq
              refine ⟨by omega, by omega, h2, ?_⟩
              simp [show cur + 1 - cur - 1 = 0 from by omega]
            · obtain ⟨hc, hh, ho, hg⟩ := (ih (cur + 1)).mp htail
              refine ⟨by omega, hh, ho, ?_⟩
              rw [show off - cur - 1 = (off - (cur + 1) - 1) + 1 from by omega,
                List.getElem?_cons_succ]
              exact hg
          · rintro ⟨hc, hh, ho, hg⟩
            by_cases hoff : off = cur + 1
            · subst hoff
              rw [show cur + 1 - cur - 1 = 0 from by omega,
                List.getElem?_cons_zero] at hg
              left
              simp at hg
              simp [hg]
            · right
              refine (ih (cur + 1)).mpr ⟨by omega, hh, ho, ?_⟩
              rw [show off - cur - 1 = (off - (cur + 1) - 1) + 1 from by omega,
                List.getElem?_cons_succ] at hg
              exact hg
        | none =>
          simp only [brokerScanFrom, if_neg h1, if_pos h2]
          rw [ih (cur + 1)]
          constructor
          · rintro ⟨hc, hh, ho, hg⟩
            refine ⟨by omega, hh, ho, ?_⟩
            rw [show off - cur - 1 = (off - (cur + 1) - 1) + 1 from by omega,
              List.getElem?_cons_succ]
            exact hg
          · rintro ⟨hc, hh, ho, hg⟩
            by_cases hoff : off = cur + 1
            · subst hoff
              rw [show cur + 1 - cur - 1 = 0 from by omega,
                List.getElem?_cons_zero] at hg
              simp at hg
            · refine ⟨by omega, hh, ho, ?_⟩
              rw [show off - cur - 1 = (off - (cur + 1) - 1) + 1 from by omega,
                List.getElem?_cons_succ] at hg
              exact hg
      · simp only [brokerScanFrom, if_neg h1, if_neg h2]
        rw [ih (cur + 1)]
        constructor
        · rintro ⟨hc, hh, ho, hg⟩
          refine ⟨by omega, hh, ho, ?_⟩
          rw [show off - cur - 1 = (off - (cur + 1) - 1) + 1 from by omega,
            List.getElem?_cons_succ]
          exact hg
        · rintro ⟨hc, hh, ho, hg⟩
          have hoff : cur + 1 < off := by omega
          refine ⟨hoff, hh, ho, ?_⟩
          rw [show off - cur - 1 = (off - (cur + 1) - 1) + 1 from by omega,
            List.getElem?_cons_succ] at hg
          exact hg

/-- Membership characterization of the follower scan (inclusion test is
`msg_offset >= offset`). -/
theorem followerScanFrom_mem {α : Type} (lines : List (Option α)) (cur hwm : Nat)
    (offset : Int) (off : Nat) (d : α) :
    (off, d) ∈ followerScanFrom lines cur hwm offset ↔
      (cur < off ∧ off ≤ hwm ∧ offset ≤ (off : Int) ∧
        lines[off - cur - 1]? = some (some d)) := by
  induction lines generalizing cur with
  | nil =>
    simp [followerScanFrom]
  | cons l rest ih =>
    by_cases h1 : hwm < cur + 1
    · simp only [followerScanFrom, if_pos h1, List.not_mem_nil, false_iff]
      rintro ⟨hc, hh, -, -⟩
      omega
    · by_cases h2 : offset ≤ ((cur + 1 : Nat) : Int)
      · cases l with
        | some d0 =>
          simp only [followerScanFrom, if_neg h1, if_pos h2, List.mem_cons]
          constructor
          · rintro (heq | htail)
            · rw [Prod.mk.injEq] at heq
              obtain ⟨rfl, rfl⟩ := heq
              refine ⟨by omega, by omega, h2, ?_⟩
              simp [show cur + 1 - cur - 1 = 0 from by omega]
            · obtain ⟨hc, hh, ho, hg⟩ := (ih (cur + 1)).mp htail
              refine ⟨by omega, hh, ho, ?_⟩
              rw [show off - cur - 1 = (off - (cur + 1) - 1) + 1 from by omega,
                List.getElem?_cons_succ]
              exact hg
          · rintro ⟨hc, hh, ho, hg⟩
            by_cases hoff : off = cur + 1
            · subst hoff
              rw [show cur + 1 - cur - 1 = 0 from by omega,
                List.getElem?_cons_zero] at hg
              left
              simp at hg
              simp [hg]
            · right
              refine (ih (cur + 1)).mpr ⟨by omega, hh, ho, ?_⟩
              rw [show off - cur - 1 = (off - (cur + 1) - 1) + 1 from by omega,
                List.getElem?_cons_succ] at hg
              exact hg
        | none =>
          simp only [followerScanFrom, if_neg h1, if_pos h2]
          rw [ih (cur + 1)]
          constructor
          · rintro ⟨hc, hh, ho, hg⟩
            refine ⟨by omega, hh, ho, ?_⟩
            rw [show off - cur - 1 = (off - (cur + 1) - 1) + 1 from by omega,
              List.getElem?_cons_succ]
            exact hg
          · rintro ⟨hc, hh, ho, hg⟩
            by_cases hoff : off = cur + 1
            · subst hoff
              rw [show cur + 1 - cur - 1 = 0 from by omega,
                List.getElem?_cons_zero] at hg
              simp at hg
            · refine ⟨by omega, hh, ho, ?_⟩
              rw [show off - cur - 1 = (off - (cur + 1) - 1) + 1 from by omega,
                List.getElem?_cons_succ] at hg
              exact hg
      · simp only [followerScanFrom, if_neg h1, if_neg h2]
        rw [ih (cur + 1)]
        constructor
        · rintro ⟨hc, hh, ho, hg⟩
          refine ⟨by omega, hh, ho, ?_⟩
          rw [show off - cur - 1 = (off - (cur + 1) - 1) + 1 from by omega,
            List.getElem?_cons_succ]
          exact hg
        · rintro ⟨hc, hh, ho, hg⟩
          have hoff : cur + 1 < off := by omega
          refine ⟨hoff, hh, ho, ?_⟩
          rw [show off - cur - 1 = (off - (cur + 1) - 1) + 1 from by omega,
            List.getElem?_cons_succ] at hg
          exact hg

/-- Every offset the broker scan returns is past the cursor. -/
theorem brokerScanFrom_fst_gt {α : Type} (lines : List (Option α))
    (cur hwm : Nat) (offset : Int) :
    ∀ q ∈ brokerScanFrom lines cur hwm offset, cur < q.1 := by
  intro q hq
  obtain ⟨off, d⟩ := q
  exact ((brokerScanFrom_mem lines cur hwm offset off d).mp hq).1

/-- The broker scan's offsets are strictly increasing (ascending order). -/
theorem brokerScanFrom_pairwise {α : Type} (lines : List (Option α))
    (cur hwm : Nat) (offset : Int) :
    ((brokerScanFrom lines cur hwm offset).map Prod.fst).Pairwise (· < ·) := by
  induction lines generalizing cur with
  | nil => simp [brokerScanFrom]
  | cons l rest ih =>
    by_cases h1 : hwm < cur + 1
    · simp [brokerScanFrom, if_pos h1]
    · by_cases h2 : offset < ((cur + 1 : Nat) : Int)
      · cases l with
        | some d0 =>
          simp only [brokerScanFrom, if_neg h1, if_pos h2, List.map_cons,
            List.pairwise_cons]
          refine ⟨?_, ih (cur + 1)⟩
          intro b hb
          obtain ⟨q, hq, rfl⟩ := List.mem_map.mp hb
          have := brokerScanFrom_fst_gt rest (cur + 1) hwm offset q hq
          omega
        | none =>
          simpa only [brokerScanFrom, if_neg h1, if_pos h2] using ih (cur + 1)
      · simpa only [brokerScanFrom, if_neg h1, if_neg h2] using ih (cur + 1)

/-- Past the high-water mark the broker scan returns nothing. -/
theorem brokerScanFrom_hwm_le_offset {α : Type} (lines : List (Option α))
    (hwm : Nat) (offset : Int) (h : (hwm : Int) ≤ offset) :
    brokerScanFrom lines 0 hwm offset = [] := by
  rw [List.eq_nil_iff_forall_not_mem]
  rintro ⟨off, d⟩ hq
  obtain ⟨-, hh, ho, -⟩ := (brokerScanFrom_mem lines 0 hwm offset off d).mp hq
  omega

/-- A non-positive requested offset behaves exactly like offset 0 in the
broker scan. -/
theorem brokerScanFrom_nonpos {α : Type} (lines : List (Option α))
    (cur hwm : Nat) (offset : Int) (h : offset ≤ 0) :
    brokerScanFrom lines cur hwm offset = brokerScanFrom lines cur hwm 0 := by
  induction lines generalizing cur with
  | nil => simp [brokerScanFrom]
  | cons l rest ih =>
    by_cases h1 : hwm < cur + 1
    · simp [brokerScanFrom, if_pos h1]
    · have h2 : offset < ((cur + 1 : Nat) : Int) := by omega
      have h2' : (0 : Int) < ((cur + 1 : Nat) : Int) := by omega
      cases l with
      | some d0 =>
        simp only [brokerScanFrom, if_neg h1, if_pos h2, if_pos h2', ih (cur + 1)]
      | none =>
        simp only [brokerScanFrom, if_neg h1, if_pos h2, if_pos h2', ih (cur + 1)]

/-- `ensure_topic_exists` leaves an existing topic untouched. -/
theorem ensure_topic_exists_of_mem (ts : TopicMap) (t : String) (n : Nat)
    (h : lookupTopic ts t = some n) : ensure_topic_exists ts t = ts := by
  simp [ensure_topic_exists, h]

/-! ### Leader election -/

/-- broker.py `attempt_leader_election`: the forceful takeover — an
unconditional `set("leader_lease", BROKER_ID, ex=...)` (no `nx=True`),
after which `IS_LEADER` is set to true. Returns the new `IS_LEADER`. -/
def broker_attempt_leader_election (brokerId : String) (r : Redis) :
    Bool × Redis :=
  (true, { r with leaderLease := some brokerId })

/-- follower `attempt_leader_election`: `set(..., nx=True)` — the key is
written only when absent, and `IS_LEADER` becomes true only when that
conditional set succeeds. -/
def follower_attempt_leader_election (brokerId : String) (r : Redis) :
    Bool × Redis :=
  match r.leaderLease with
  | none => (true, { r with leaderLease := some brokerId })
  | some _ => (false, r)

/-! ### Claim C1: leader election semantics -/

/-- C1 (counterexample): the claim that election sets `leader_lease` only
when absent and grants leadership only on a successful conditional set is
false for broker.py.  Concretely, after the follower wins an election (a
lease exists and its IS_LEADER is true), the broker's election still
overwrites the lease and sets its own IS_LEADER, so both nodes report
leadership at once. -/
theorem election_conditional_create_counterexample :
    (follower_attempt_leader_election "follower-a" ⟨none, [], []⟩).1 = true ∧
    (follower_attempt_leader_election "follower-a" ⟨none, [], []⟩).2.leaderLease
      = some "follower-a" ∧
    (broker_attempt_leader_election "broker-b"
      (follower_attempt_leader_election "follower-a" ⟨none, [], []⟩).2).1 = true ∧
    (broker_attempt_leader_election "broker-b"
      (follower_attempt_leader_election "follower-a" ⟨none, [], []⟩).2).2.leaderLease
      = some "broker-b" :=
  ⟨rfl, rfl, rfl, rfl⟩

/-- C1 (amended): only the follower's election uses conditional-create —
it becomes leader exactly when the lease is absent and never overwrites an
existing lease — while broker.py's election is a forceful takeover that
unconditionally writes the lease and always sets IS_LEADER, so two nodes
can simultaneously report `is_leader=true`. -/
theorem election_semantics (r : Redis) (fid bid : String) :
    (follower_attempt_leader_election fid r).1 = r.leaderLease.isNone ∧
    (follower_attempt_leader_election fid r).2.leaderLease =
      (if r.leaderLease.isNone then some fid else r.leaderLease) ∧
    (broker_attempt_leader_election bid r).1 = true ∧
    (broker_attempt_leader_election bid r).2.leaderLease = some bid := by
  cases hr : r.leaderLease <;>
    simp [follower_attempt_leader_election, broker_attempt_leader_election, hr]

/-! ### Claim C4: non-leader guard -/

/-- C4 (counterexample): on a node that is not leader and with no lease in
the store, `/consume` answers 400 `{"error": "Not the leader"}` — not the
503 `No leader elected yet` the claim requires — while `/produce` in the
same state does answer 503. -/
theorem nonleader_guard_counterexample :
    broker_handle_consume false (⟨[], []⟩ : Node String) ⟨none, [], []⟩
        (some "t") none none =
      (⟨400, some "Not the leader", none, none⟩, []) ∧
    (broker_handle_produce (fun _ => 0) "broker-a" false
        (⟨[], []⟩ : Node (Message String)) ⟨none, [], []⟩ none "f" 0 true).1.code
      = 503 :=
  ⟨rfl, rfl⟩

/-- C4 (amended): on a non-leader node, `/produce` returns 503
`No leader elected yet` when no lease exists and 400 `Not the leader` with
the current `leader_id` when one does; `/consume` on a non-leader instead
always returns a bare 400 `Not the leader` without consulting the lease,
so it never returns 503 and never includes the leader id. -/
theorem nonleader_guard_semantics {α β : Type} (h : String → Int)
    (bid fid : String) (node : Node (Message α)) (nodeC : Node β) (r : Redis)
    (req : Option (ProduceReq α)) (freshId : String) (now : Nat) (diskOk : Bool)
    (targ parg oarg : Option String) :
    (broker_handle_produce h bid false node r req freshId now diskOk).1 =
      (match r.leaderLease with
       | none => ⟨503, none, none, none, none, none, none,
           some "No leader elected yet. Please try again."⟩
       | some lid => ⟨400, none, none, none, none, some lid, none,
           some "Not the leader"⟩) ∧
    (follower_handle_produce h fid false node r req now diskOk).1 =
      (match r.leaderLease with
       | none => ⟨503, none, none, none, none, none, none,
           some "No leader elected yet. Please try again."⟩
       | some lid => ⟨400, none, none, none, none, some lid, none,
           some "Not the leader"⟩) ∧
    (broker_handle_consume false nodeC r targ parg oarg).1 =
      ⟨400, some "Not the leader", none, none⟩ ∧
    follower_handle_consume false nodeC r targ parg oarg =
      ⟨400, some "Not the leader", none, none⟩ := by
  cases hr : r.leaderLease <;>
    simp [broker_handle_produce, follower_handle_produce,
      broker_handle_consume, follower_handle_consume, hr]

/-! ### Claim C7: corrupt lines and offsets -/

/-- C7: in both partition-log scans a corrupt line (one that fails JSON
parsing) is never returned, yet it occupies one offset position: a pair
`(off, d)` is returned exactly when line number `off` (1-based) is within
the committed range, past the requested offset, and parses to `d` — so
every well-formed record keeps the offset given by its line number, with
or without corrupt lines before it. -/
theorem scan_offsets_by_line_number {α : Type} (lines : List (Option α))
    (hwm : Nat) (o : Int) (off : Nat) (d : α) :
    ((off, d) ∈ brokerScanFrom lines 0 hwm o ↔
      (0 < off ∧ off ≤ hwm ∧ o < (off : Int) ∧ lines[off - 1]? = some (some d))) ∧
    ((off, d) ∈ followerScanFrom lines 0 hwm o ↔
      (0 < off ∧ off ≤ hwm ∧ o ≤ (off : Int) ∧ lines[off - 1]? = some (some d))) := by
  have hb := brokerScanFrom_mem lines 0 hwm o off d
  have hf := followerScanFrom_mem lines 0 hwm o off d
  simp only [Nat.sub_zero] at hb hf
  exact ⟨hb, hf⟩

/-! ### Claim C9: partition assignment -/

/-- C9: partition assignment is `h(key) mod n` for the process-stable hash
`h`; for `n > 0` the result lies in `0 .. n-1` (so equal keys always land
on the same partition of a topic), and a null key maps to partition 0. -/
theorem partition_for_key_spec (h : String → Int) (k : String) (n : Int)
    (hn : 0 < n) :
    0 ≤ get_partition_for_key h (some k) n ∧
    get_partition_for_key h (some k) n < n ∧
    get_partition_for_key h (some k) n = h k % n ∧
    get_partition_for_key h none n = 0 :=
  ⟨Int.emod_nonneg _ (by omega), Int.emod_lt_of_pos _ hn, rfl, rfl⟩

/-- C9 (witness): the partition theorem evaluated at a hash returning −7
and 3 partitions. -/
theorem partition_for_key_spec_witness :
    (0 : Int) < 3 ∧
      (0 ≤ get_partition_for_key (fun _ => (-7 : Int)) (some "k1") 3 ∧
       get_partition_for_key (fun _ => (-7 : Int)) (some "k1") 3 < 3 ∧
       get_partition_for_key (fun _ => (-7 : Int)) (some "k1") 3 =
         (fun _ => (-7 : Int)) "k1" % 3 ∧
       get_partition_for_key (fun _ => (-7 : Int)) none 3 = 0) :=
  ⟨by decide, partition_for_key_spec (fun _ => (-7 : Int)) "k1" 3 (by decide)⟩

/-! ### Claim C3: consume offset filtering -/

/-- C3 (counterexample): on the follower's promoted-leader consume path the
inclusion test is `msg_offset >= offset`, so consuming with offset 1 while
the high-water mark is 1 returns the record at offset 1 — not the empty
array the claim requires for `offset ≥ HWM`. -/
theorem consume_offset_filter_counterexample :
    (follower_handle_consume true
        (⟨[("t", 3)], [(("t", 0), [some "a"])]⟩ : Node String)
        ⟨some "follower-x", [(("t", 0), 1)], []⟩
        (some "t") (some "0") (some "1")).messages = some [⟨1, "t", 0, "a"⟩] ∧
    (follower_handle_consume true
        (⟨[("t", 3)], [(("t", 0), [some "a"])]⟩ : Node String)
        ⟨some "follower-x", [(("t", 0), 1)], []⟩
        (some "t") (some "0") (some "1")).highWaterMark = some 1 :=
  ⟨rfl, rfl⟩

/-- C3 (amended): broker.py's consume returns exactly the parseable log
records with offset strictly greater than the requested offset and at most
the high-water mark, sorted ascending by offset, and with
`offset ≥ HWM` the array is empty; the follower's consume instead keeps
records with offset greater than OR EQUAL to the requested offset, so a
request at `offset = HWM` can return the record at that offset. -/
theorem consume_offset_filter_semantics {α : Type} (node : Node α) (r : Redis)
    (t : String) (n : Nat) (p o : Int) (lines : List (Option α))
    (ht : lookupTopic node.topics t = some n)
    (hp0 : 0 ≤ p) (hpn : p < (n : Int))
    (hf : alistGet node.files (t, p) = some lines) :
    ((brokerConsumeCore node r t p o).1.code = 200 ∧
     (brokerConsumeCore node r t p o).1.highWaterMark =
        some ((redisGetHwm r t p).getD 0) ∧
     (brokerConsumeCore node r t p o).1.messages =
        some ((brokerScanFrom lines 0 ((redisGetHwm r t p).getD 0) o).map
          (fun q => ⟨q.1, t, p, q.2⟩)) ∧
     (∀ off d, (off, d) ∈ brokerScanFrom lines 0 ((redisGetHwm r t p).getD 0) o ↔
        (0 < off ∧ off ≤ (redisGetHwm r t p).getD 0 ∧ o < (off : Int) ∧
          lines[off - 1]? = some (some d))) ∧
     ((brokerScanFrom lines 0 ((redisGetHwm r t p).getD 0) o).map
        Prod.fst).Pairwise (· < ·) ∧
     ((((redisGetHwm r t p).getD 0 : Nat) : Int) ≤ o →
        (brokerConsumeCore node r t p o).1.messages = some [])) ∧
    ((followerConsumeCore node r t p o).messages =
        some ((followerScanFrom lines 0 ((redisGetHwm r t p).getD 0) o).map
          (fun q => ⟨q.1, t, p, q.2⟩)) ∧
     (∀ off d, (off, d) ∈ followerScanFrom lines 0 ((redisGetHwm r t p).getD 0) o ↔
        (0 < off ∧ off ≤ (redisGetHwm r t p).getD 0 ∧ o ≤ (off : Int) ∧
          lines[off - 1]? = some (some d)))) := by
  have he : ensure_topic_exists node.topics t = node.topics :=
    ensure_topic_exists_of_mem _ _ _ ht
  have hcond : ¬ (p < 0 ∨ ((n : Nat) : Int) ≤ p) := by omega
  have hb : brokerConsumeCore node r t p o =
      (⟨200, none,
        some ((brokerScanFrom lines 0 ((redisGetHwm r t p).getD 0) o).map
          (fun q => ⟨q.1, t, p, q.2⟩)),
        some ((redisGetHwm r t p).getD 0)⟩, node.topics) := by
    simp only [brokerConsumeCore, he, ht, Option.getD_some, if_neg hcond, hf]
  have hfc : followerConsumeCore node r t p o =
      ⟨200, none,
        some ((followerScanFrom lines 0 ((redisGetHwm r t p).getD 0) o).map
          (fun q => ⟨q.1, t, p, q.2⟩)),
        some ((redisGetHwm r t p).getD 0)⟩ := by
    simp only [followerConsumeCore, ht, if_neg hcond, hf]
  refine ⟨⟨by rw [hb], by rw [hb], by rw [hb], ?_, ?_, ?_⟩, ⟨by rw [hfc], ?_⟩⟩
  · intro off d
    have := brokerScanFrom_mem lines 0 ((redisGetHwm r t p).getD 0) o off d
    simpa only [Nat.sub_zero] using this
  · exact brokerScanFrom_pairwise lines 0 ((redisGetHwm r t p).getD 0) o
  · intro hle
    rw [hb, brokerScanFrom_hwm_le_offset lines _ o hle]
    simp
  · intro off d
    have := followerScanFrom_mem lines 0 ((redisGetHwm r t p).getD 0) o off d
    simpa only [Nat.sub_zero] using this

/-- C3 (witness): the consume-filter theorem applied to a concrete log
with a corrupt second line, HWM 3 and requested offset 1. -/
theorem consume_offset_filter_semantics_witness :
    lookupTopic [("t", 2)] "t" = some 2 ∧
    (brokerConsumeCore
        (⟨[("t", 2)], [(("t", 0), [some "a", none, some "b", some "c"])]⟩ :
          Node String)
        ⟨none, [(("t", 0), 3)], []⟩ "t" 0 1).1.messages =
      some ((brokerScanFrom [some "a", none, some "b", some "c"] 0
          ((redisGetHwm ⟨none, [(("t", 0), 3)], []⟩ "t" 0).getD 0) 1).map
        (fun q => ⟨q.1, "t", 0, q.2⟩)) :=
  ⟨by decide,
    (consume_offset_filter_semantics
      (⟨[("t", 2)], [(("t", 0), [some "a", none, some "b", some "c"])]⟩ :
        Node String)
      ⟨none, [(("t", 0), 3)], []⟩ "t" 2 0 1
      [some "a", none, some "b", some "c"]
      (by decide) (by decide) (by decide) (by decide)).1.2.2.1⟩

/-! ### Claim C6: consume offset validation -/

/-- C6 (counterexample): a `/consume` call with `offset=-5` is not
rejected: `int("-5")` succeeds and no negativity check exists, so the
broker answers 200 with the committed records instead of the 400 the
claim requires. -/
theorem negative_offset_counterexample :
    (broker_handle_consume true
        (⟨[("t", 3)], [(("t", 0), [some "a"])]⟩ : Node String)
        ⟨some "broker-x", [(("t", 0), 1)], []⟩
        (some "t") (some "0") (some "-5")).1.code = 200 ∧
    (broker_handle_consume true
        (⟨[("t", 3)], [(("t", 0), [some "a"])]⟩ : Node String)
        ⟨some "broker-x", [(("t", 0), 1)], []⟩
        (some "t") (some "0") (some "-5")).1.messages = some [⟨1, "t", 0, "a"⟩] :=
  ⟨rfl, rfl⟩

/-- C6 (amended): a consume call whose offset (or partition) parameter
fails integer parsing returns 400 `Invalid parameters`; a negative offset
is accepted and behaves exactly like offset 0 on the broker scan path. -/
theorem consume_offset_validation {α : Type} (node : Node α) (r : Redis)
    (targ parg oarg : Option String) (p : Int)
    (hp : pyIntArg parg = some p) (ho : pyIntArg oarg = none)
    (t : String) (o : Int) (hneg : o ≤ 0) :
    broker_handle_consume true node r targ parg oarg =
      (⟨400, some "Invalid parameters", none, none⟩, node.topics) ∧
    brokerConsumeCore node r t p o = brokerConsumeCore node r t p 0 := by
  refine ⟨by simp [broker_handle_consume, hp, ho], ?_⟩
  simp only [brokerConsumeCore]
  split_ifs with hcond
  · rfl
  · cases halist : alistGet node.files (t, p) <;>
      simp [halist, brokerScanFrom_nonpos _ _ _ _ hneg]

/-- C6 (witness): the validation theorem at `partition="0"`,
`offset="abc"` (parse failure) and a negative offset −5. -/
theorem consume_offset_validation_witness :
    pyIntArg (some "abc") = none ∧
    broker_handle_consume true (⟨[("t", 3)], []⟩ : Node String)
        ⟨none, [], []⟩ (some "t") (some "0") (some "abc") =
      (⟨400, some "Invalid parameters", none, none⟩, [("t", 3)]) :=
  ⟨by decide,
    (consume_offset_validation (⟨[("t", 3)], []⟩ : Node String) ⟨none, [], []⟩
      (some "t") (some "0") (some "abc") 0 (by decide) (by decide)
      "t" (-5) (by decide)).1⟩

/-! ### Claim C10: consume with a missing log file -/

/-- C10: when the partition's log file does not exist on disk for an
existing (topic, partition), both consume paths answer 200 with
`{"messages": []}` and omit the `high_water_mark` field, even when the
stored HWM for that partition is positive. -/
theorem missing_log_file_consume {α : Type} (node : Node α) (r : Redis)
    (t : String) (n : Nat) (p o : Int) (k : Nat)
    (ht : lookupTopic node.topics t = some n)
    (hp0 : 0 ≤ p) (hpn : p < (n : Int))
    (hfile : alistGet node.files (t, p) = none)
    (_hk : redisGetHwm r t p = some k) (_hkpos : 0 < k) :
    brokerConsumeCore node r t p o = (⟨200, none, some [], none⟩, node.topics) ∧
    followerConsumeCore node r t p o = ⟨200, none, some [], none⟩ := by
  have he : ensure_topic_exists node.topics t = node.topics :=
    ensure_topic_exists_of_mem _ _ _ ht
  have hcond : ¬ (p < 0 ∨ ((n : Nat) : Int) ≤ p) := by omega
  constructor
  · simp only [brokerConsumeCore, he, ht, Option.getD_some, if_neg hcond, hfile]
  · simp only [followerConsumeCore, ht, if_neg hcond, hfile]

/-- C10 (witness): the missing-file theorem at a topic with three
partitions, no file on disk, and a stored HWM of 5. -/
theorem missing_log_file_consume_witness :
    redisGetHwm ⟨none, [(("t", 0), 5)], []⟩ "t" 0 = some 5 ∧
    (brokerConsumeCore (⟨[("t", 3)], []⟩ : Node String)
        ⟨none, [(("t", 0), 5)], []⟩ "t" 0 0 =
      (⟨200, none, some [], none⟩, [("t", 3)]) ∧
    followerConsumeCore (⟨[("t", 3)], []⟩ : Node String)
        ⟨none, [(("t", 0), 5)], []⟩ "t" 0 0 = ⟨200, none, some [], none⟩) :=
  ⟨by decide,
    missing_log_file_consume (⟨[("t", 3)], []⟩ : Node String)
      ⟨none, [(("t", 0), 5)], []⟩ "t" 3 0 0 5
      (by decide) (by decide) (by decide) (by decide) (by decide) (by decide)⟩

/-! ### Claim C2: producer idempotence -/

/-- C2 (counterexample): broker.py performs no idempotence check at all.
With `msg_id` "m1" already claimed (it is in the lock set, the record is
in the log and HWM is 1), a replayed produce with "m1" still answers
`status="success"` with the NEW offset 2 and appends a second log line —
not the duplicate reply with no offset and no append that the claim
requires. -/
theorem produce_duplicate_counterexample :
    (broker_handle_produce (fun _ => 0) "broker-a" true
        (⟨[("t", 3)], [(("t", 0), [some ⟨"m1", "t", 0, none, "v0", 0⟩])]⟩ :
          Node (Message String))
        ⟨some "broker-a", [(("t", 0), 1)], ["m1"]⟩
        (some ⟨some "m1", some "t", none, none, none, "v1"⟩) "fresh" 7
        true).1.status = some "success" ∧
    (broker_handle_produce (fun _ => 0) "broker-a" true
        (⟨[("t", 3)], [(("t", 0), [some ⟨"m1", "t", 0, none, "v0", 0⟩])]⟩ :
          Node (Message String))
        ⟨some "broker-a", [(("t", 0), 1)], ["m1"]⟩
        (some ⟨some "m1", some "t", none, none, none, "v1"⟩) "fresh" 7
        true).1.offset = some 2 ∧
    (broker_handle_produce (fun _ => 0) "broker-a" true
        (⟨[("t", 3)], [(("t", 0), [some ⟨"m1", "t", 0, none, "v0", 0⟩])]⟩ :
          Node (Message String))
        ⟨some "broker-a", [(("t", 0), 1)], ["m1"]⟩
        (some ⟨some "m1", some "t", none, none, none, "v1"⟩) "fresh" 7
        true).2.1.files =
      [(("t", 0), [some ⟨"m1", "t", 0, none, "v0", 0⟩,
        some ⟨"m1", "t", 0, none, "v1", 7⟩])] :=
  ⟨rfl, rfl, rfl⟩

/-- C2 (amended): only the follower's promoted-leader produce path dedupes.
There, a produce whose msg_id is already claimed answers HTTP 200 with
status `success_duplicate` (not `duplicate`), no offset field, and leaves
the log, registry and store untouched; and of successive produces with the
same msg_id at most the first returns `success_new` — the claim succeeds
exactly when the atomic set-if-absent on the lock key succeeds, so any
later produce with that msg_id inside the idempotence window is answered
as a duplicate.  broker.py's produce path never consults the lock set: a
replayed msg_id is appended again and assigned a fresh offset with
status `success`. -/
theorem produce_idempotence_semantics {α : Type} (h : String → Int)
    (bid fid : String) (node nodeF nodeF0 : Node (Message α))
    (r rF rF0 : Redis) (rq rqF rqF0 rqF2 : ProduceReq α) (freshId : String)
    (now nowF now0 now2 : Nat) (dF dOk2 : Bool) (m mf mf0 : String)
    (hfm : pyTruthy rqF.msg_id = some mf) (hfl : mf ∈ rF.locks)
    (h0m : pyTruthy rqF0.msg_id = some mf0) (h0l : mf0 ∉ rF0.locks)
    (h2m : pyTruthy rqF2.msg_id = some mf0)
    (hbm : rq.msg_id = some m) (_hbl : m ∈ r.locks) :
    (follower_handle_produce h fid true nodeF rF (some rqF) nowF dF =
      (⟨200, some "success_duplicate", none, none, none, some fid, some mf,
        none⟩, nodeF, rF)) ∧
    ((follower_handle_produce h fid true nodeF0 rF0 (some rqF0) now0
        true).1.status = some "success_new" ∧
     mf0 ∈ (follower_handle_produce h fid true nodeF0 rF0 (some rqF0) now0
        true).2.2.locks ∧
     (follower_handle_produce h fid true
        (follower_handle_produce h fid true nodeF0 rF0 (some rqF0) now0 true).2.1
        (follower_handle_produce h fid true nodeF0 rF0 (some rqF0) now0 true).2.2
        (some rqF2) now2 dOk2).1.status = some "success_duplicate") ∧
    ((broker_handle_produce h bid true node r (some rq) freshId now
        true).1.status = some "success" ∧
     (broker_handle_produce h bid true node r (some rq) freshId now
        true).1.offset =
       some ((redisGetHwm r (resolveTopic rq)
         (get_partition_for_key h (resolveKey rq)
           ((lookupTopic (ensure_topic_exists node.topics (resolveTopic rq))
             (resolveTopic rq)).getD 0 : Nat))).getD 0 + 1) ∧
     (broker_handle_produce h bid true node r (some rq) freshId now
        true).2.1.files =
       appendFile node.files (resolveTopic rq,
         get_partition_for_key h (resolveKey rq)
           ((lookupTopic (ensure_topic_exists node.topics (resolveTopic rq))
             (resolveTopic rq)).getD 0 : Nat))
         (some ⟨m, resolveTopic rq,
           get_partition_for_key h (resolveKey rq)
             ((lookupTopic (ensure_topic_exists node.topics (resolveTopic rq))
               (resolveTopic rq)).getD 0 : Nat),
           resolveKey rq, rq.payload, now⟩)) := by
  refine ⟨?_, ⟨?_, ?_, ?_⟩, ?_, ?_, ?_⟩
  · simp [follower_handle_produce, hfm, hfl]
  · simp [follower_handle_produce, h0m, h0l, redisIncrHwm]
  · simp [follower_handle_produce, h0m, h0l, redisIncrHwm]
  · simp [follower_handle_produce, h0m, h0l, h2m, redisIncrHwm]
  · simp [broker_handle_produce, hbm]
  · simp [broker_handle_produce, hbm, redisIncrHwm]
  · simp [broker_handle_produce, hbm]

/-- C2 (witness): the idempotence theorem at concrete states — a follower
whose lock set already holds "m1" answering a replay of "m1" with
`success_duplicate` and unchanged state. -/
theorem produce_idempotence_semantics_witness :
    pyTruthy (some "m1") = some "m1" ∧ "m1" ∈ ["m1"] ∧
    follower_handle_produce (fun _ => 0) "follower-a" true
        (⟨[], []⟩ : Node (Message String)) ⟨some "follower-a", [], ["m1"]⟩
        (some ⟨some "m1", none, none, none, none, "v"⟩) 3 true =
      (⟨200, some "success_duplicate", none, none, none, some "follower-a",
        some "m1", none⟩, (⟨[], []⟩ : Node (Message String)),
        ⟨some "follower-a", [], ["m1"]⟩) :=
  ⟨by decide, by decide,
    (produce_idempotence_semantics (fun _ => 0) "b" "follower-a"
      (⟨[], []⟩ : Node (Message String)) (⟨[], []⟩ : Node (Message String))
      (⟨[], []⟩ : Node (Message String))
      ⟨some "b", [], ["m2"]⟩ ⟨some "follower-a", [], ["m1"]⟩ ⟨none, [], []⟩
      ⟨some "m2", none, none, none, none, "v"⟩
      ⟨some "m1", none, none, none, none, "v"⟩
      ⟨some "m3", none, none, none, none, "v"⟩
      ⟨some "m3", none, none, none, none, "v"⟩
      "fresh" 0 3 0 0 true true "m2" "m1" "m3"
      (by decide) (by decide) (by decide) (by decide) (by decide)
      (by decide) (by decide)).1⟩

/-! ### Claim C5: missing msg_id -/

/-- C5 (counterexample): a produce without `msg_id` is not rejected by
broker.py — it substitutes a fresh uuid, appends the record and commits,
answering 200 `success`, not the 400 the claim requires. -/
theorem missing_msg_id_counterexample :
    (broker_handle_produce (fun _ => 0) "broker-a" true
        (⟨[], []⟩ : Node (Message String)) ⟨some "broker-a", [], []⟩
        (some ⟨none, none, none, none, none, "v"⟩) "uuid-1" 5 true).1.code
      = 200 ∧
    (broker_handle_produce (fun _ => 0) "broker-a" true
        (⟨[], []⟩ : Node (Message String)) ⟨some "broker-a", [], []⟩
        (some ⟨none, none, none, none, none, "v"⟩) "uuid-1" 5 true).1.status
      = some "success" ∧
    (broker_handle_produce (fun _ => 0) "broker-a" true
        (⟨[], []⟩ : Node (Message String)) ⟨some "broker-a", [], []⟩
        (some ⟨none, none, none, none, none, "v"⟩) "uuid-1" 5 true).2.1.files
      = [(("default", 0), [some ⟨"uuid-1", "default", 0, none, "v", 5⟩])] :=
  ⟨rfl, rfl, rfl⟩

/-- C5 (amended): only the follower's promoted-leader produce rejects a
request whose `msg_id` is missing (or empty) with 400 `msg_id is required`
and no state change; broker.py instead substitutes a fresh
`str(uuid.uuid4())` and processes the request exactly as if that id had
been supplied, answering 200 `success`. -/
theorem missing_msg_id_semantics {α : Type} (h : String → Int)
    (bid fid : String) (node nodeF : Node (Message α)) (r rF : Redis)
    (rq rqF : ProduceReq α) (freshId : String) (now nowF : Nat) (dF : Bool)
    (hfm : pyTruthy rqF.msg_id = none) (hbm : rq.msg_id = none) :
    follower_handle_produce h fid true nodeF rF (some rqF) nowF dF =
      (⟨400, none, none, none, none, none, none, some "msg_id is required"⟩,
        nodeF, rF) ∧
    broker_handle_produce h bid true node r (some rq) freshId now true =
      broker_handle_produce h bid true node r
        (some { rq with msg_id := some freshId }) freshId now true ∧
    (broker_handle_produce h bid true node r (some rq) freshId now
        true).1.code = 200 ∧
    (broker_handle_produce h bid true node r (some rq) freshId now
        true).1.status = some "success" := by
  refine ⟨by simp [follower_handle_produce, hfm], ?_, ?_, ?_⟩
  · simp [broker_handle_produce, hbm, resolveTopic, resolveKey]
  · simp [broker_handle_produce, hbm]
  · simp [broker_handle_produce, hbm]

/-- C5 (witness): the missing-msg_id theorem at concrete states — the
follower's 400 rejection leaving node and store untouched. -/
theorem missing_msg_id_semantics_witness :
    pyTruthy (none : Option String) = none ∧
    follower_handle_produce (fun _ => 0) "follower-a" true
        (⟨[], []⟩ : Node (Message String)) ⟨some "follower-a", [], []⟩
        (some ⟨none, none, none, none, none, "v"⟩) 3 true =
      (⟨400, none, none, none, none, none, none, some "msg_id is required"⟩,
        (⟨[], []⟩ : Node (Message String)), ⟨some "follower-a", [], []⟩) :=
  ⟨by decide,
    (missing_msg_id_semantics (fun _ => 0) "b" "follower-a"
      (⟨[], []⟩ : Node (Message String)) (⟨[], []⟩ : Node (Message String))
      ⟨some "b", [], []⟩ ⟨some "follower-a", [], []⟩
      ⟨none, none, none, none, none, "v"⟩ ⟨none, none, none, none, none, "v"⟩
      "fresh" 0 3 true (by decide) (by decide)).1⟩

/-! ### Claim C8: failure after claim releases the lock -/

/-- C8: if the follower's produce pipeline raises after the msg_id claim
and before commit, the handler deletes the idempotence lock before
returning 500: the lock set, HWM store and log files are exactly as
before, so an immediate retry with the same msg_id is treated as NEW and
answers `success_new`. -/
theorem produce_failure_releases_lock {α : Type} (h : String → Int)
    (fid : String) (node : Node (Message α)) (r : Redis) (rq : ProduceReq α)
    (now now2 : Nat) (m : String)
    (hm : pyTruthy rq.msg_id = some m) (hnl : m ∉ r.locks) :
    (follower_handle_produce h fid true node r (some rq) now false).1.code
      = 500 ∧
    (follower_handle_produce h fid true node r (some rq) now false).1.error
      = some "Internal error" ∧
    (follower_handle_produce h fid true node r (some rq) now false).2.2.locks
      = r.locks ∧
    (follower_handle_produce h fid true node r (some rq) now false).2.2.hwm
      = r.hwm ∧
    (follower_handle_produce h fid true node r (some rq) now false).2.1.files
      = node.files ∧
    (follower_handle_produce h fid true
        (follower_handle_produce h fid true node r (some rq) now false).2.1
        (follower_handle_produce h fid true node r (some rq) now false).2.2
        (some rq) now2 true).1.status = some "success_new" := by
  have hout : follower_handle_produce h fid true node r (some rq) now false =
      (⟨500, none, none, none, none, none, none, some "Internal error"⟩,
        ⟨ensure_topic_exists node.topics (resolveTopic rq), node.files⟩,
        ⟨r.leaderLease, r.hwm, r.locks⟩) := by
    simp [follower_handle_produce, hm, hnl]
  refine ⟨by rw [hout], by rw [hout], by rw [hout], by rw [hout], by rw [hout], ?_⟩
  rw [hout]
  simp [follower_handle_produce, hm, hnl, redisIncrHwm]

/-- C8 (witness): the release-on-failure theorem at a concrete state with
an empty lock set: the failing produce answers 500 and the retry of the
same msg_id answers `success_new`. -/
theorem produce_failure_releases_lock_witness :
    pyTruthy (some "m1") = some "m1" ∧ "m1" ∉ ([] : List String) ∧
    (follower_handle_produce (fun _ => 0) "follower-a" true
        (⟨[], []⟩ : Node (Message String)) ⟨some "follower-a", [], []⟩
        (some ⟨some "m1", none, none, none, none, "v"⟩) 3 false).1.code = 500 :=
  ⟨by decide, by decide,
    (produce_failure_releases_lock (fun _ => 0) "follower-a"
      (⟨[], []⟩ : Node (Message String)) ⟨some "follower-a", [], []⟩
      ⟨some "m1", none, none, none, none, "v"⟩ 3 4 "m1"
      (by decide) (by decide)).1⟩

end YAK
